import Mathlib

/-!
Formal model of `streamlit_app.py` from the retina-edumat repository.

The program is a single-page Streamlit application.  Its reproducible logic is:

* `generate_content` — builds a prompt from patient/clinical form data, calls the
  external text-generation service, and on exception returns the sentinel string
  `"Error generating content: " ++ message` instead of propagating the failure;
* `SystemEvaluator.evaluate_generation` — computes a metrics record from the
  returned content (timestamp, elapsed time, content length, language, literal
  `"English"` substring marker, and an `error_occurred` flag that is always false);
* session state — two lists (`evaluation_results`, `system_metrics`) initialised
  empty and only ever appended to by the button handlers in `main`;
* `save_evaluation_results` and the download handler — render each list as a
  header-plus-rows table (pandas `DataFrame` / `to_csv`) without touching state.

Nondeterministic environment reads (wall-clock times, `datetime.now()` timestamps,
the external service response) are passed in as explicit parameters.  CSV cell
serialization follows pandas for the fields that occur: scalars print directly,
Python booleans print as `True` / `False`, and the nested `scores` / `feedback`
dictionaries are stringified into a single cell in Python `repr` style (the
serialized-as-one-string-column option of the export contract).  An empty
collection exports a header-only table.
-/

namespace RetinaEdumat

/-- Patient demographics collected by the Generator tab
(`patient_data` dict in `main`). -/
structure PatientData where
  age : Nat
  language : String
  education : String
deriving DecidableEq, Repr

/-- Clinical information collected by the Generator tab
(`clinical_data` dict in `main`). -/
structure ClinicalData where
  diagnosis : String
  va_re : String
  va_le : String
  oct_findings : String
  sections : List String
deriving DecidableEq, Repr

/-- The metrics dictionary produced by `SystemEvaluator.evaluate_generation`. -/
structure GenerationMetric where
  timestamp : String
  generation_time : Int
  content_length : Nat
  language : String
  has_english : Bool
  error_occurred : Bool
deriving DecidableEq, Repr

/-- The nested `feedback` dictionary of an evaluation record. -/
structure Feedback where
  strengths : String
  weaknesses : String
  suggestions : String
deriving DecidableEq, Repr

/-- The evaluation dictionary appended by the Submit Evaluation handler.
`scores` is an insertion-ordered mapping from metric name to a 1–5 score,
modelled as an association list. -/
structure EvaluationRecord where
  timestamp : String
  evaluator_level : String
  scores : List (String × Nat)
  feedback : Feedback
  would_use : String
deriving DecidableEq, Repr

/-- The Streamlit session state relevant to the record store:
`st.session_state.evaluation_results` and `st.session_state.system_metrics`. -/
structure SessionState where
  evaluation_results : List EvaluationRecord
  system_metrics : List GenerationMetric
deriving DecidableEq, Repr

/-- Session start: both collections are initialised to the empty list. -/
def initialState : SessionState :=
  { evaluation_results := [], system_metrics := [] }

/-- Python's substring test `needle in hay` (contiguous, case-sensitive). -/
def strContains (hay needle : String) : Bool :=
  decide (needle.data <:+: hay.data)

/-- The prompt f-string constructed inside `generate_content`, with the template
segments reproduced literally (including the 4-space indentation of the Python
triple-quoted string) and the interpolated fields spliced in between. -/
def generationPrompt (patient_data : PatientData) (clinical_data : ClinicalData) : String :=
  "\n    Create a colorful, engaging patient education material with emojis and formatting. Use the following patient information:\n    \n    Patient Details:\n    - Age: "
  ++ toString patient_data.age
  ++ "\n    - Preferred Language: "
  ++ patient_data.language
  ++ "\n    - Education Level: "
  ++ patient_data.education
  ++ "\n    \n    Clinical Information:\n    - Diagnosis: "
  ++ clinical_data.diagnosis
  ++ "\n    - Visual Acuity RE: "
  ++ clinical_data.va_re
  ++ "\n    - Visual Acuity LE: "
  ++ clinical_data.va_le
  ++ "\n    - OCT Findings: "
  ++ clinical_data.oct_findings
  ++ "\n    \n    Include these sections: "
  ++ String.intercalate ", " clinical_data.sections
  ++ "\n    \n    Make the content patient-friendly, using simple language. Add emojis and color indicators using markdown.\n    Use different colors for different sections (using markdown).\n    Include a summary at the end.\n    \n    If the language selected is not English, provide content in both English and the selected language.\n    "

/-- The one instruction sentence of the prompt template that concerns a second
language. -/
def bilingualInstruction : String :=
  "If the language selected is not English, provide content in both English and the selected language."

/-- `generate_content`: builds the prompt, invokes the external service, and on
failure returns the error message wrapped in the sentinel prefix instead of
raising.  The external service is modelled as a function from the prompt to
either generated text or an error message (`Except.error` plays the role of a
raised exception whose `str` is the message). -/
def generate_content (service : String → Except String String)
    (patient_data : PatientData) (clinical_data : ClinicalData) : String :=
  match service (generationPrompt patient_data clinical_data) with
  | Except.ok text => text
  | Except.error e => "Error generating content: " ++ e

/-- `SystemEvaluator`: holds the construction-time wall clock reading
`self.start_time = time.time()`. -/
structure SystemEvaluator where
  start_time : Int
deriving DecidableEq, Repr

/-- `SystemEvaluator.evaluate_generation`: the metrics dictionary computed after
a generation.  `now` models the `time.time()` reading and `ts` the
`datetime.now().strftime(...)` timestamp taken inside the method. -/
def SystemEvaluator.evaluate_generation (self : SystemEvaluator) (now : Int)
    (ts : String) (content : String) (patient_data : PatientData) : GenerationMetric :=
  { timestamp := ts
    generation_time := now - self.start_time
    content_length := content.length
    language := patient_data.language
    has_english := strContains content "English"
    error_occurred := false }

/-- Pandas renders Python booleans as `True` / `False` in CSV cells. -/
def pyBool (b : Bool) : String :=
  if b then "True" else "False"

/-- Python `repr` of a plain string: surrounded by single quotes
(escaping inside the string is not modelled; no exported field needs it). -/
def pyQuote (s : String) : String :=
  "\x27" ++ s ++ "\x27"

/-- Python `repr` of the `scores` dictionary, as pandas stringifies it into a
single CSV cell. -/
def scoresCell (scores : List (String × Nat)) : String :=
  "\x7b" ++ String.intercalate ", "
    (scores.map (fun kv => pyQuote kv.1 ++ ": " ++ toString kv.2)) ++ "\x7d"

/-- Python `repr` of the `feedback` dictionary, as pandas stringifies it into a
single CSV cell. -/
def feedbackCell (fb : Feedback) : String :=
  "\x7b" ++ pyQuote "strengths" ++ ": " ++ pyQuote fb.strengths ++ ", "
  ++ pyQuote "weaknesses" ++ ": " ++ pyQuote fb.weaknesses ++ ", "
  ++ pyQuote "suggestions" ++ ": " ++ pyQuote fb.suggestions ++ "\x7d"

/-- Column names of the metrics export: the keys of the metrics dictionary in
insertion order. -/
def metricHeader : List String :=
  ["timestamp", "generation_time", "content_length", "language",
   "has_english", "error_occurred"]

/-- One exported data row for a generation metric. -/
def metricRow (m : GenerationMetric) : List String :=
  [m.timestamp, toString m.generation_time, toString m.content_length,
   m.language, pyBool m.has_english, pyBool m.error_occurred]

/-- Column names of the evaluations export: the keys of the evaluation
dictionary in insertion order. -/
def evaluationHeader : List String :=
  ["timestamp", "evaluator_level", "scores", "feedback", "would_use"]

/-- One exported data row for an evaluation record; the nested dictionaries are
serialized into single string cells. -/
def evaluationRow (e : EvaluationRecord) : List String :=
  [e.timestamp, e.evaluator_level, scoresCell e.scores,
   feedbackCell e.feedback, e.would_use]

/-- Data rows of the metrics export (`pd.DataFrame(system_metrics)`). -/
def metricsRows (ms : List GenerationMetric) : List (List String) :=
  ms.map metricRow

/-- Data rows of the evaluations export (`pd.DataFrame(evaluation_results)`). -/
def evaluationsRows (es : List EvaluationRecord) : List (List String) :=
  es.map evaluationRow

/-- One CSV line: comma-separated cells. -/
def csvLine (cells : List String) : String :=
  String.intercalate "," cells

/-- A table rendered as a CSV byte stream (`df.to_csv()` content): one line per
table row, newline-terminated. -/
def tableCsvString (table : List (List String)) : String :=
  String.intercalate "\n" (table.map csvLine) ++ "\n"

/-- The metrics CSV byte stream: header line followed by one line per record. -/
def metricsCsvString (ms : List GenerationMetric) : String :=
  tableCsvString (metricHeader :: metricsRows ms)

/-- The evaluations CSV byte stream. -/
def evaluationsCsvString (es : List EvaluationRecord) : String :=
  tableCsvString (evaluationHeader :: evaluationsRows es)

/-- `save_evaluation_results`: renders both collections to tables
`(df_evaluations, df_metrics)` and returns them; the session state is read but
not modified (the function also writes the tables to local files, an external
effect outside the session state). -/
def save_evaluation_results (s : SessionState) :
    (List (List String) × List (List String)) × SessionState :=
  ((evaluationHeader :: evaluationsRows s.evaluation_results,
    metricHeader :: metricsRows s.system_metrics), s)

/-- `list.append` on the metrics collection: adds one record at the end. -/
def appendMetric (ms : List GenerationMetric) (m : GenerationMetric) :
    List GenerationMetric :=
  ms ++ [m]

/-- `list.append` on the evaluations collection: adds one record at the end. -/
def appendEvaluation (es : List EvaluationRecord) (e : EvaluationRecord) :
    List EvaluationRecord :=
  es ++ [e]

/-- One user action handled by `main`.  For a generation, `svcResult` is the
external service's response to this invocation, `start_time` and `now` the two
wall-clock readings, and `ts` the metric timestamp. -/
inductive Action where
  | generate (patient_data : PatientData) (clinical_data : ClinicalData)
      (svcResult : Except String String) (start_time now : Int) (ts : String)
  | submitEvaluation (ts evaluator_level : String) (scores : List (String × Nat))
      (strengths weaknesses suggestions would_use : String)
  | downloadAll

/-- What a handler presents back to the user. -/
inductive Output where
  | generated (content : String) (metric : GenerationMetric)
  | evaluationSubmitted
  | downloads (evaluationsCsv metricsCsv : String)
deriving DecidableEq, Repr

/-- The button handlers of `main`, as a step function on session state. -/
def step (s : SessionState) (a : Action) : SessionState × Output :=
  match a with
  | Action.generate p c r start now ts =>
      let content := generate_content (fun _ => r) p c
      let metric := SystemEvaluator.evaluate_generation ⟨start⟩ now ts content p
      ({ s with system_metrics := appendMetric s.system_metrics metric },
       Output.generated content metric)
  | Action.submitEvaluation ts lvl scores str weak sugg wu =>
      ({ s with evaluation_results :=
          appendEvaluation s.evaluation_results ⟨ts, lvl, scores, ⟨str, weak, sugg⟩, wu⟩ },
       Output.evaluationSubmitted)
  | Action.downloadAll =>
      let saved := save_evaluation_results s
      (saved.2,
       Output.downloads (tableCsvString saved.1.1) (tableCsvString saved.1.2))

/-- Run a sequence of user actions from a state. -/
def runActions (s : SessionState) (as : List Action) : SessionState :=
  as.foldl (fun s a => (step s a).1) s

/-- Does the action append a record to the metrics collection? -/
def appendsMetric : Action → Bool
  | Action.generate _ _ _ _ _ _ => true
  | _ => false

/-- Modelled from the spec: whether the constructed prompt requires the external
service to produce output in a second language.  What the external service does
with the prompt is not code of this repository; the spec fixes the reading of
the template's only second-language directive (section 4.2, step 1d): the
output is to be bilingual exactly when the prompt carries
`bilingualInstruction` and declares a preferred language other than English. -/
def promptRequiresSecondLanguage (patient_data : PatientData)
    (clinical_data : ClinicalData) : Bool :=
  strContains (generationPrompt patient_data clinical_data) bilingualInstruction
    && (patient_data.language != "English")

/-! ## Helper lemmas -/

theorem strContains_iff (hay needle : String) :
    strContains hay needle = true ↔ needle.data <:+: hay.data := by
  simp [strContains]

theorem strContains_of_eq (hay pre needle suf : String)
    (h : hay = pre ++ (needle ++ suf)) : strContains hay needle = true := by
  subst h
  simp [strContains]

theorem strContains_append_left (a b needle : String)
    (h : strContains b needle = true) : strContains (a ++ b) needle = true := by
  rw [strContains_iff] at h ⊢
  rw [String.data_append]
  exact h.trans ⟨a.data, [], by simp⟩

theorem strContains_append_right (a b needle : String)
    (h : strContains a needle = true) : strContains (a ++ b) needle = true := by
  rw [strContains_iff] at h ⊢
  rw [String.data_append]
  exact h.trans ⟨[], b.data, by simp⟩

theorem strContains_self (s : String) : strContains s s = true := by
  simp [strContains, List.infix_refl]

theorem foldl_appendMetric (xs : List GenerationMetric) (acc : List GenerationMetric) :
    xs.foldl appendMetric acc = acc ++ xs := by
  induction xs generalizing acc with
  | nil => simp
  | cons x xs ih => simp [appendMetric, ih]

theorem foldl_appendEvaluation (xs : List EvaluationRecord) (acc : List EvaluationRecord) :
    xs.foldl appendEvaluation acc = acc ++ xs := by
  induction xs generalizing acc with
  | nil => simp
  | cons x xs ih => simp [appendEvaluation, ih]

/-- Splitting the constructed prompt around the preferred-language line. -/
theorem generationPrompt_language_decomp (p : PatientData) (c : ClinicalData) :
    generationPrompt p c =
      ("\n    Create a colorful, engaging patient education material with emojis and formatting. Use the following patient information:\n    \n    Patient Details:\n    - Age: "
        ++ toString p.age ++ "\n    - ")
      ++ (("Preferred Language: " ++ p.language)
        ++ ("\n    - Education Level: "
          ++ p.education
          ++ "\n    \n    Clinical Information:\n    - Diagnosis: "
          ++ c.diagnosis
          ++ "\n    - Visual Acuity RE: "
          ++ c.va_re
          ++ "\n    - Visual Acuity LE: "
          ++ c.va_le
          ++ "\n    - OCT Findings: "
          ++ c.oct_findings
          ++ "\n    \n    Include these sections: "
          ++ String.intercalate ", " c.sections
          ++ "\n    \n    Make the content patient-friendly, using simple language. Add emojis and color indicators using markdown.\n    Use different colors for different sections (using markdown).\n    Include a summary at the end.\n    \n    If the language selected is not English, provide content in both English and the selected language.\n    ")) := by
  simp only [generationPrompt]
  rw [(by decide :
    ("\n    - Preferred Language: " : String) = "\n    - " ++ "Preferred Language: ")]
  simp only [String.append_assoc]

set_option maxRecDepth 8000 in
/-- The bilingual instruction sentence occurs in every constructed prompt. -/
theorem generationPrompt_contains_bilingual (p : PatientData) (c : ClinicalData) :
    strContains (generationPrompt p c) bilingualInstruction = true := by
  simp only [generationPrompt, bilingualInstruction]
  apply strContains_append_left
  decide

/-- The preferred-language declaration for the selected language occurs in
every constructed prompt. -/
theorem generationPrompt_contains_language (p : PatientData) (c : ClinicalData) :
    strContains (generationPrompt p c) ("Preferred Language: " ++ p.language) = true := by
  rw [generationPrompt_language_decomp p c]
  apply strContains_append_left
  apply strContains_append_right
  exact strContains_self _

theorem runActions_cons (s : SessionState) (a : Action) (as : List Action) :
    runActions s (a :: as) = runActions (step s a).1 as := rfl

theorem runActions_no_metric_append (s : SessionState) (as : List Action)
    (h : ∀ a ∈ as, appendsMetric a = false) :
    (runActions s as).system_metrics = s.system_metrics := by
  induction as generalizing s with
  | nil => rfl
  | cons a as ih =>
      have ha := h a (List.mem_cons_self a as)
      have hstep : (step s a).1.system_metrics = s.system_metrics := by
        cases a with
        | generate p c r start now ts => simp [appendsMetric] at ha
        | submitEvaluation ts lvl scores str weak sugg wu => rfl
        | downloadAll => rfl
      rw [runActions_cons, ih (step s a).1 (fun b hb => h b (List.mem_cons_of_mem a hb)),
        hstep]

theorem step_collections_grow (s : SessionState) (a : Action) :
    s.system_metrics <+: (step s a).1.system_metrics
    ∧ s.evaluation_results <+: (step s a).1.evaluation_results := by
  cases a with
  | generate p c r start now ts =>
      exact ⟨List.prefix_append s.system_metrics _, List.prefix_refl _⟩
  | submitEvaluation ts lvl scores str weak sugg wu =>
      exact ⟨List.prefix_refl _, List.prefix_append s.evaluation_results _⟩
  | downloadAll =>
      exact ⟨List.prefix_refl _, List.prefix_refl _⟩

theorem runActions_collections_grow (s : SessionState) (as : List Action) :
    s.system_metrics <+: (runActions s as).system_metrics
    ∧ s.evaluation_results <+: (runActions s as).evaluation_results := by
  induction as generalizing s with
  | nil => exact ⟨List.prefix_refl _, List.prefix_refl _⟩
  | cons a as ih =>
      have h1 := step_collections_grow s a
      have h2 := ih (step s a).1
      exact ⟨h1.1.trans h2.1, h1.2.trans h2.2⟩

/-! ## Claim theorems -/

/-- Claim C1: when the external text-generation service fails with message `m`,
`generate_content` does not propagate the failure: the returned content is a
sentinel string embedding `m`, the generate flow still computes a metric from
that sentinel content and appends it, and the metric's `error_occurred` field
is false. -/
theorem generate_flow_error_sentinel (m : String) (p : PatientData)
    (c : ClinicalData) (start now : Int) (ts : String) (s : SessionState) :
    strContains (generate_content (fun _ => Except.error m) p c) m = true
    ∧ step s (Action.generate p c (Except.error m) start now ts)
        = ({ s with system_metrics := s.system_metrics ++
              [SystemEvaluator.evaluate_generation ⟨start⟩ now ts
                (generate_content (fun _ => Except.error m) p c) p] },
           Output.generated (generate_content (fun _ => Except.error m) p c)
             (SystemEvaluator.evaluate_generation ⟨start⟩ now ts
               (generate_content (fun _ => Except.error m) p c) p))
    ∧ (SystemEvaluator.evaluate_generation ⟨start⟩ now ts
        (generate_content (fun _ => Except.error m) p c) p).error_occurred = false := by
  refine ⟨?_, rfl, rfl⟩
  have h : generate_content (fun _ => Except.error m) p c
      = "Error generating content: " ++ (m ++ "") := by
    simp [generate_content]
  exact strContains_of_eq _ _ _ _ h

/-- Claim C2: for every patient and clinical input, with language "Hindi" the
constructed prompt contains the preferred-language declaration for Hindi and
the instruction sentence demanding bilingual (English plus selected-language)
output, so it requires a second language; with language "English" the prompt
declares English and does not require a second language. -/
theorem prompt_bilingual_requirement (p : PatientData) (c : ClinicalData) :
    (p.language = "Hindi" →
       strContains (generationPrompt p c) "Preferred Language: Hindi" = true
       ∧ strContains (generationPrompt p c) bilingualInstruction = true
       ∧ promptRequiresSecondLanguage p c = true)
    ∧ (p.language = "English" →
       strContains (generationPrompt p c) "Preferred Language: English" = true
       ∧ promptRequiresSecondLanguage p c = false) := by
  constructor
  · intro hl
    have hpl := generationPrompt_contains_language p c
    rw [hl, (by decide :
      ("Preferred Language: " ++ "Hindi" : String) = "Preferred Language: Hindi")] at hpl
    refine ⟨hpl, generationPrompt_contains_bilingual p c, ?_⟩
    simp [promptRequiresSecondLanguage, generationPrompt_contains_bilingual p c, hl]
  · intro hl
    have hpl := generationPrompt_contains_language p c
    rw [hl, (by decide :
      ("Preferred Language: " ++ "English" : String) = "Preferred Language: English")] at hpl
    refine ⟨hpl, ?_⟩
    simp [promptRequiresSecondLanguage, hl]

/-- Witness for C2 at a concrete Hindi-speaking and a concrete English-speaking
patient. -/
theorem prompt_bilingual_requirement_witness :
    (strContains
        (generationPrompt ⟨50, "Hindi", "Secondary (upto High School)"⟩
          ⟨"Diabetic Retinopathy", "6/6", "6/6", "",
            ["Disease Overview", "Treatment Options"]⟩)
        "Preferred Language: Hindi" = true
      ∧ strContains
        (generationPrompt ⟨50, "Hindi", "Secondary (upto High School)"⟩
          ⟨"Diabetic Retinopathy", "6/6", "6/6", "",
            ["Disease Overview", "Treatment Options"]⟩)
        bilingualInstruction = true
      ∧ promptRequiresSecondLanguage ⟨50, "Hindi", "Secondary (upto High School)"⟩
          ⟨"Diabetic Retinopathy", "6/6", "6/6", "",
            ["Disease Overview", "Treatment Options"]⟩ = true)
    ∧ (strContains
        (generationPrompt ⟨50, "English", "Secondary (upto High School)"⟩
          ⟨"Diabetic Retinopathy", "6/6", "6/6", "",
            ["Disease Overview", "Treatment Options"]⟩)
        "Preferred Language: English" = true
      ∧ promptRequiresSecondLanguage ⟨50, "English", "Secondary (upto High School)"⟩
          ⟨"Diabetic Retinopathy", "6/6", "6/6", "",
            ["Disease Overview", "Treatment Options"]⟩ = false) :=
  ⟨(prompt_bilingual_requirement _ _).1 rfl, (prompt_bilingual_requirement _ _).2 rfl⟩

/-- Claim C3: in the generate flow, the metric's `content_length` equals the
character length of the paired returned content, for success and
failure-sentinel responses alike. -/
theorem metric_content_length_eq (r : Except String String) (p : PatientData)
    (c : ClinicalData) (start now : Int) (ts : String) :
    (SystemEvaluator.evaluate_generation ⟨start⟩ now ts
        (generate_content (fun _ => r) p c) p).content_length
      = (generate_content (fun _ => r) p c).length := rfl

/-- Claim C4: the metric's `has_english` field is true iff the literal,
case-sensitive substring "English" occurs in the content, independent of any
language detection; in particular it is true for "Bonjour, mon English friend"
and false for "Bonjour". -/
theorem metric_has_english_iff (content ts : String) (p : PatientData)
    (ev : SystemEvaluator) (now : Int) :
    ((ev.evaluate_generation now ts content p).has_english = true
        ↔ "English".data <:+: content.data)
    ∧ (ev.evaluate_generation now ts "Bonjour, mon English friend" p).has_english = true
    ∧ (ev.evaluate_generation now ts "Bonjour" p).has_english = false := by
  refine ⟨strContains_iff content "English", ?_, ?_⟩
  · exact (by decide : strContains "Bonjour, mon English friend" "English" = true)
  · exact (by decide : strContains "Bonjour" "English" = false)

/-- Claim C5: N appends to either collection followed by the corresponding
export produce exactly N data rows, one per appended record, in append order. -/
theorem export_rows_count_and_order (ms : List GenerationMetric)
    (es : List EvaluationRecord) :
    metricsRows (ms.foldl appendMetric []) = ms.map metricRow
    ∧ (metricsRows (ms.foldl appendMetric [])).length = ms.length
    ∧ evaluationsRows (es.foldl appendEvaluation []) = es.map evaluationRow
    ∧ (evaluationsRows (es.foldl appendEvaluation [])).length = es.length := by
  refine ⟨?_, ?_, ?_, ?_⟩ <;>
    simp [foldl_appendMetric, foldl_appendEvaluation, metricsRows, evaluationsRows]

/-- Claim C6: submitting exactly one evaluation with scores
Medical Accuracy 5, Language Clarity 4, Completeness 3,
Cultural Appropriateness 5, Formatting Quality 4 and wouldUse "Definitely"
makes the evaluations export contain exactly one data row, and that row
reproduces the five scores (serialized into the scores cell), the wouldUse
answer, the timestamp and the evaluator id. -/
theorem single_evaluation_export_row (ts lvl str weak sugg : String) :
    (step initialState (Action.submitEvaluation ts lvl
        [("Medical Accuracy", 5), ("Language Clarity", 4), ("Completeness", 3),
         ("Cultural Appropriateness", 5), ("Formatting Quality", 4)]
        str weak sugg "Definitely")).1.evaluation_results.length = 1
    ∧ evaluationsRows (step initialState (Action.submitEvaluation ts lvl
        [("Medical Accuracy", 5), ("Language Clarity", 4), ("Completeness", 3),
         ("Cultural Appropriateness", 5), ("Formatting Quality", 4)]
        str weak sugg "Definitely")).1.evaluation_results
      = [[ts, lvl,
          scoresCell [("Medical Accuracy", 5), ("Language Clarity", 4),
            ("Completeness", 3), ("Cultural Appropriateness", 5),
            ("Formatting Quality", 4)],
          feedbackCell ⟨str, weak, sugg⟩, "Definitely"]]
    ∧ scoresCell [("Medical Accuracy", 5), ("Language Clarity", 4),
          ("Completeness", 3), ("Cultural Appropriateness", 5),
          ("Formatting Quality", 4)]
        = "\x7b\x27Medical Accuracy\x27: 5, \x27Language Clarity\x27: 4, \x27Completeness\x27: 3, \x27Cultural Appropriateness\x27: 5, \x27Formatting Quality\x27: 4\x7d" := by
  refine ⟨rfl, rfl, by decide⟩

/-- Claim C7: the metrics export is idempotent: a second download immediately
after a first one produces the identical output, and more generally any
sequence of actions that appends no metric leaves the metrics CSV byte stream
unchanged. -/
theorem metrics_export_idempotent (s : SessionState) (as : List Action)
    (h : ∀ a ∈ as, appendsMetric a = false) :
    (step s Action.downloadAll).2
        = (step (step s Action.downloadAll).1 Action.downloadAll).2
    ∧ metricsCsvString (runActions s as).system_metrics
        = metricsCsvString s.system_metrics := by
  exact ⟨rfl, by rw [runActions_no_metric_append s as h]⟩

/-- Witness for C7: starting from the empty session and performing one
download (which appends no metric). -/
theorem metrics_export_idempotent_witness :
    (step initialState Action.downloadAll).2
        = (step (step initialState Action.downloadAll).1 Action.downloadAll).2
    ∧ metricsCsvString (runActions initialState [Action.downloadAll]).system_metrics
        = metricsCsvString initialState.system_metrics :=
  metrics_export_idempotent initialState [Action.downloadAll]
    (by intro a ha; simp at ha; subst ha; rfl)

/-- Claim C8: the download-all handler returns both export streams (evaluations
and metrics) and leaves the stored session state unchanged. -/
theorem downloadAll_frame (s : SessionState) :
    step s Action.downloadAll
      = (s, Output.downloads (evaluationsCsvString s.evaluation_results)
          (metricsCsvString s.system_metrics)) := rfl

/-- Claim C9: both collections start empty at session start, and under every
sequence of actions each collection only grows at the end: the earlier value
is a prefix of the later one, so no record is removed, mutated or reordered. -/
theorem record_store_append_only :
    initialState.system_metrics = [] ∧ initialState.evaluation_results = []
    ∧ ∀ (s : SessionState) (as : List Action),
        s.system_metrics <+: (runActions s as).system_metrics
        ∧ s.evaluation_results <+: (runActions s as).evaluation_results :=
  ⟨rfl, rfl, runActions_collections_grow⟩

/-- Claim C10: when the external service fails with message `m`, the content
returned by `generate_content` is exactly the fixed sentinel prefix
"Error generating content: " followed by `m`. -/
theorem generate_content_error_sentinel_exact (m : String) (p : PatientData)
    (c : ClinicalData) :
    generate_content (fun _ => Except.error m) p c
      = "Error generating content: " ++ m := rfl

end RetinaEdumat
